import Mathlib

/-!
Verification of the isometric city-builder core (GridManager placement /
removal, depth comparator, tick economy, save/load) against its
natural-language specification.  The definitions below are a shallow
embedding of `public/assets/japanese_town_Japanese_Town/GridManager.js`,
`public/assets/fantasy_kingdom_Fantasy_Kingdom/GameScene.js`, the
`BuildingRegistry` and the `Tile` class.  JavaScript numbers are modelled
as `Int` (money, population, costs, counts) and `ℚ` (happiness, depth
keys); `Math.floor` is `Int.floor`, `Math.round` is floor of `x + 1/2`.
`Config.gridSize` (Config.js is not part of the sources) is a parameter
`n`.  Truthiness guards of the form `if (config.effects.population)` are
modelled by unconditionally adding the (defaulted-to-zero) delta, which
is arithmetically identical.
-/

namespace NewCity

/-- One entry of `BuildingRegistry` (src/unnamed/part_001): name, cost,
footprint size, population/happiness effect deltas (0 when the JS object
omits the field) and the optional population requirement (0 when absent). -/
structure BuildingConfig where
  type : String
  cost : Int
  size : Nat
  effPop : Int
  effHap : ℚ
  reqPop : Int
deriving DecidableEq

def grassConfig : BuildingConfig := ⟨"grass", 0, 1, 0, 0, 0⟩
def houseConfig : BuildingConfig := ⟨"house", 60, 1, 1, 0, 0⟩
def shopConfig : BuildingConfig := ⟨"shop", 40, 1, 0, -(1/10), 0⟩
def parkConfig : BuildingConfig := ⟨"park", 100, 1, 0, 1/5, 0⟩
def universityConfig : BuildingConfig := ⟨"university", 1000, 2, -1, 1/2, 1⟩
def marketConfig : BuildingConfig := ⟨"market", 10000, 2, 0, 0, 0⟩

/-- `getBuildingConfig` from the registry: lookup by type with fallback to
grass (`BuildingRegistry[type] || BuildingRegistry.grass`). -/
def getBuildingConfig (t : String) : BuildingConfig :=
  if t = "grass" then grassConfig
  else if t = "house" then houseConfig
  else if t = "shop" then shopConfig
  else if t = "park" then parkConfig
  else if t = "university" then universityConfig
  else if t = "market" then marketConfig
  else grassConfig

/-- The mutable state of one `Tile` object: its texture key, flip flag,
back-reference to the footprint anchor (`masterTile`), master flag, and
visibility. -/
structure Tile where
  type : String
  isFlipped : Bool
  masterTile : Option (Nat × Nat)
  isMaster : Bool
  visible : Bool
deriving DecidableEq

def grassTile : Tile := ⟨"grass", false, none, false, true⟩

/-- The scene-held game state (`GameScene` fields read and written by the
grid logic), plus the grid itself as a total function; only indices below
the grid size are meaningful.  `costs` maps a type to its current price,
with 0 standing for a missing key (JS `undefined` is falsy exactly like 0
in every use of `costs`). -/
structure Scene where
  money : Int
  population : Int
  happiness : ℚ
  costs : String → Int
  previewFlipped : Bool
  grid : Nat → Nat → Tile

/-- Failure classification of `placeTile` (spec §4.1); each constructor
corresponds to one early-return site of the JS code. -/
inductive PlaceErr
  | outOfBounds
  | occupied
  | insufficientFunds
  | prereqNotMet
deriving DecidableEq

inductive PlaceResult
  | ok
  | noop
  | err (e : PlaceErr)
deriving DecidableEq

def updateMoney (s : Scene) (amount : Int) : Scene :=
  { s with money := s.money + amount }

def updatePopulation (s : Scene) (amount : Int) : Scene :=
  { s with population := s.population + amount }

def updateHappiness (s : Scene) (amount : ℚ) : Scene :=
  { s with happiness := s.happiness + amount }

/-- JS `Math.round`: round half toward positive infinity. -/
def jsRound (q : ℚ) : Int := ⌊q + 1/2⌋

/-- `GameScene.incrementCost`: multiply the stored cost by 1.1 (exact
rational 11/10 here) and round, only when the current cost is positive. -/
def incrementCost (s : Scene) (t : String) : Scene :=
  if 0 < s.costs t then
    { s with costs := fun u => if u = t then jsRound (s.costs t * (11/10)) else s.costs u }
  else s

section

variable (n : Nat)

/-- `GridManager.isValidCoord` (coordinates are naturals here, so only the
upper bounds remain). -/
def isValidCoord (row col : Nat) : Prop := row < n ∧ col < n

instance (row col : Nat) : Decidable (isValidCoord n row col) := by
  unfold isValidCoord; infer_instance

/-- The cells of an N×N footprint anchored at (row, col), in the row-major
order of the JS double loop. -/
def footprintCells (row col size : Nat) : List (Nat × Nat) :=
  (List.range size).flatMap fun i => (List.range size).map fun j => (row + i, col + j)

/-- One iteration of the multi-tile availability loop: out-of-bounds and
occupied cells abort placement (both surface as "SPACE BLOCKED"; the spec
classifies them as OutOfBounds resp. Occupied). -/
def cellBlock (s : Scene) (rc : Nat × Nat) : Option PlaceErr :=
  if ¬ isValidCoord n rc.1 rc.2 then some .outOfBounds
  else if (s.grid rc.1 rc.2).type ≠ "grass" ∨ (s.grid rc.1 rc.2).masterTile ≠ none then
    some .occupied
  else none

end

/-- `GridManager.clearMultiTile`: reverse the master's effects and reset
every footprint cell to visible unflipped grass with no anchor data. -/
def clearMultiTile (s : Scene) (masterPos : Nat × Nat) : Scene :=
  let config := getBuildingConfig (s.grid masterPos.1 masterPos.2).type
  let s2 := updateHappiness (updatePopulation s (-config.effPop)) (-config.effHap)
  { s2 with grid := fun r c =>
      if masterPos.1 ≤ r ∧ r < masterPos.1 + config.size ∧
         masterPos.2 ≤ c ∧ c < masterPos.2 + config.size then
        { type := "grass", isFlipped := false, masterTile := none,
          isMaster := false, visible := true }
      else s2.grid r c }

/-- The multi-tile setup loop of `placeTile`: every footprint cell gets the
anchor back-reference; the anchor takes the new texture, flip and master
flag and stays visible, the other cells are hidden. -/
def applyMultiTile (s : Scene) (row col size : Nat) (type : String) (flipped : Bool) : Scene :=
  { s with grid := fun r c =>
      if row ≤ r ∧ r < row + size ∧ col ≤ c ∧ c < col + size then
        if r = row ∧ c = col then
          { type := type, isFlipped := flipped, masterTile := some (row, col),
            isMaster := true, visible := true }
        else
          { s.grid r c with
            masterTile := some (row, col)
            isMaster := false
            visible := false }
      else s.grid r c }

/-- The final single-tile write of `placeTile`: `updateType`, `setFlip`,
clear the anchor data.  Visibility is untouched. -/
def singlePlaceCell (t : Tile) (type : String) (flipped : Bool) : Tile :=
  { t with type := type, isFlipped := flipped, masterTile := none, isMaster := false }

/-- The state after the final `if (!multiTile)` block of `placeTile`
rewrote the clicked cell. -/
def applySingleTile (s : Scene) (row col : Nat) (type : String) (flipped : Bool) : Scene :=
  { s with grid := fun r c =>
      if r = row ∧ c = col then singlePlaceCell (s.grid r c) type flipped
      else s.grid r c }

/-- `this.scene.costs[type] || config.cost`: the stored per-kind cost when
it is non-zero (absent keys are modelled as 0), the registry cost
otherwise. -/
def effectiveCost (s : Scene) (type : String) : Int :=
  if s.costs type = 0 then (getBuildingConfig type).cost else s.costs type

/-- The body of the `if (oldType !== type)` block of `placeTile`: charge
the (possibly escalated) cost, check the population requirement, clean up
the previous occupant, apply the new kind's effects and, for multi-tile
kinds, stamp the footprint. -/
def chargePhase (s : Scene) (row col : Nat) (type : String) (newFlipped : Bool) :
    Except PlaceErr Scene :=
  let cost := effectiveCost s type
  if 0 < cost ∧ s.money < cost then .error .insufficientFunds
  else if (getBuildingConfig type).reqPop ≠ 0 ∧
      s.population < (getBuildingConfig type).reqPop then .error .prereqNotMet
  else
    let s1 := if 0 < cost then incrementCost (updateMoney s (-cost)) type else s
    let s2 :=
      match (s.grid row col).masterTile with
      | some mp => clearMultiTile s1 mp
      | none =>
        if (s.grid row col).type ≠ "grass" then
          updateHappiness
            (updatePopulation s1 (-(getBuildingConfig (s.grid row col).type).effPop))
            (-(getBuildingConfig (s.grid row col).type).effHap)
        else s1
    let s3 := updateHappiness (updatePopulation s2 (getBuildingConfig type).effPop)
      (getBuildingConfig type).effHap
    if 1 < (getBuildingConfig type).size then
      .ok (applyMultiTile s3 row col (getBuildingConfig type).size type newFlipped)
    else .ok s3

section

variable (n : Nat)

/-- `GridManager.placeTile`, returning the new scene and the outcome.
Every early `return` of the JS code yields the unchanged scene together
with the spec's classification of that return site; `updateDepths` and
`saveGame` at the end do not touch the modelled state. -/
def placeTile (s : Scene) (row col : Nat) (type : String) : Scene × PlaceResult :=
  if ¬ isValidCoord n row col then (s, .err .outOfBounds)
  else
    match (if 1 < (getBuildingConfig type).size then
            (footprintCells row col (getBuildingConfig type).size).findSome? (cellBlock n s)
          else none) with
    | some e => (s, .err e)
    | none =>
      if ¬ 1 < (getBuildingConfig type).size ∧ type ≠ "grass" ∧
          ((s.grid row col).type ≠ "grass" ∨ (s.grid row col).masterTile ≠ none) ∧
          (s.grid row col).type ≠ type then
        (s, .err .occupied)
      else if (s.grid row col).type = type ∧ (s.grid row col).isFlipped = s.previewFlipped ∧
          ¬ 1 < (getBuildingConfig type).size then
        (s, .noop)
      else
        match (if (s.grid row col).type ≠ type then chargePhase s row col type s.previewFlipped
              else .ok s) with
        | .error e => (s, .err e)
        | .ok s4 =>
          if ¬ 1 < (getBuildingConfig type).size then
            (applySingleTile s4 row col type s.previewFlipped, .ok)
          else (s4, .ok)

end

/-- Anchor resolution as performed by removal: the charge phase clears the
footprint of `masterTile` when the cell carries the back-reference, and
treats the cell as its own anchor otherwise. -/
def resolveAnchor (s : Scene) (r c : Nat) : Nat × Nat :=
  ((s.grid r c).masterTile).getD (r, c)

/-- The per-cell record written by `getGridData` and read back by
`initGrid`: exactly the four persisted fields. -/
structure TileData where
  type : String
  flipped : Bool
  masterTile : Option (Nat × Nat)
  isMaster : Bool
deriving DecidableEq

def tileDataOf (t : Tile) : TileData :=
  { type := t.type, flipped := t.isFlipped, masterTile := t.masterTile,
    isMaster := t.isMaster }

/-- The default cell record used by `initGrid` when no save data exists. -/
def defaultTileData : TileData := ⟨"grass", false, none, false⟩

/-- Rebuilding one tile from saved data, as in `initGrid`: the four
persisted fields are copied (`|| null` / `|| false` defaults preserve
them), and the tile is hidden exactly when it is a non-master member of a
multi-tile footprint. -/
def tileFromData (td : TileData) : Tile :=
  { type := td.type, isFlipped := td.flipped, masterTile := td.masterTile,
    isMaster := td.isMaster,
    visible := if td.masterTile ≠ none ∧ td.isMaster = false then false else true }

/-- `GridManager.initGrid` as a grid builder.  Reads outside the saved
array never happen for the well-formed documents produced by `saveGame`;
they default to the fresh-grid record here. -/
def initGrid (savedData : Option (List (List TileData))) : Nat → Nat → Tile :=
  fun r c =>
    match savedData with
    | none => tileFromData defaultTileData
    | some d => tileFromData ((d.getD r []).getD c defaultTileData)

section

variable (n : Nat)

/-- `GridManager.getGridData`: the row-major array of persisted cell
records. -/
def getGridData (s : Scene) : List (List TileData) :=
  (List.range n).map fun r => (List.range n).map fun c => tileDataOf (s.grid r c)

end

/-- The single JSON document written by `GameScene.saveGame`. -/
structure SaveDoc where
  money : Int
  population : Int
  happiness : ℚ
  costs : String → Int
  grid : List (List TileData)

section

variable (n : Nat)

def saveGame (s : Scene) : SaveDoc :=
  { money := s.money, population := s.population, happiness := s.happiness,
    costs := s.costs, grid := getGridData n s }

/-- `GameScene.loadGame` on a successfully parsed document.  The JS merge
`\x7b...this.costs, ...gameState.costs\x7d` resolves to the saved map: the
saved object carries every key of the constructor-initialized map (the
registry types), and both sides agree (absent, modelled 0) elsewhere. -/
def loadGame (doc : SaveDoc) (s : Scene) : Scene :=
  { money := doc.money, population := doc.population, happiness := doc.happiness,
    costs := doc.costs, previewFlipped := s.previewFlipped,
    grid := initGrid (some doc.grid) }

/-- `GridManager.countTiles`: cells whose texture key equals the type. -/
def countTiles (s : Scene) (type : String) : Int :=
  (((footprintCells 0 0 n).filter fun rc =>
    decide ((s.grid rc.1 rc.2).type = type)).length : Nat)

end

/-- `Phaser.Math.Clamp`. -/
def clamp (v lo hi : ℚ) : ℚ := max lo (min hi v)

/-- `GameScene.getEffectiveHappiness`: happiness minus 0.1 per unit of
population above 10. -/
def getEffectiveHappiness (s : Scene) : ℚ :=
  s.happiness - (max 0 (s.population - 10) : ℤ) * (1/10)

section

variable (n : Nat)

/-- `GameScene.calculateIncome`. -/
def calculateIncome (s : Scene) : Int :=
  let shops := countTiles n s "shop"
  let markets := countTiles n s "market"
  if 0 < shops ∨ 0 < markets then
    let effectiveHappiness := clamp (getEffectiveHappiness s) (-(1/2)) (3/2)
    let baseIncomePerShop : Int := 10 + ⌊(s.population : ℚ) / 5⌋
    let incomePerShop : Int := ⌊(baseIncomePerShop : ℚ) * effectiveHappiness⌋
    (if 0 < shops then shops * incomePerShop else 0) +
      (if 0 < markets then markets * (incomePerShop * 10) else 0)
  else 0

/-- `GameScene.handleTick`: add the computed income to the balance when it
is positive; the floating-text display does not touch the state. -/
def handleTick (s : Scene) : Scene :=
  if 0 < calculateIncome n s then updateMoney s (calculateIncome n s) else s

end

/-- The spec's income formula, written from the claim's words: per-shop
income floor((10 + floor(population/5)) * h) with h the effective
happiness clamped to [-0.5, 1.5]; per-market income 10 times per-shop;
total shops*perShop + markets*perMarket. -/
def specPerShopIncome (population : Int) (happiness : ℚ) : Int :=
  ⌊((10 + ⌊(population : ℚ) / 5⌋ : ℤ) : ℚ) *
    clamp (happiness - (max 0 (population - 10) : ℤ) * (1/10)) (-(1/2)) (3/2)⌋

def specIncome (shops markets population : Int) (happiness : ℚ) : Int :=
  shops * specPerShopIncome population happiness +
    markets * (10 * specPerShopIncome population happiness)

/-- One drawable entity as seen by the depth comparator in
`updateDepths`: grid coordinates when set (`?? 999` default otherwise),
texture key, and the preview/cursor flag. -/
structure Entity where
  gridRow : Option Int
  gridCol : Option Int
  texture : String
  isPreview : Bool
deriving DecidableEq

/-- The depth key computed inside the comparator: `row + col`, plus
`size - 1` for multi-tile kinds, plus `0.1` for any non-grass texture. -/
def depthKey (e : Entity) : ℚ :=
  ((e.gridRow.getD 999 + e.gridCol.getD 999 : ℤ) : ℚ) +
    (if 1 < (getBuildingConfig e.texture).size then
      (((getBuildingConfig e.texture).size - 1 : ℕ) : ℚ) else 0) +
    (if e.texture ≠ "grass" then 1/10 else 0)

/-- The sort comparator of `GridManager.updateDepths`: depth difference
when it exceeds the 0.01 tolerance, then row difference, then the preview
sorts last. -/
def compareEntities (a b : Entity) : ℚ :=
  if 1/100 < |depthKey a - depthKey b| then depthKey a - depthKey b
  else if a.gridRow.getD 999 ≠ b.gridRow.getD 999 then
    ((a.gridRow.getD 999 - b.gridRow.getD 999 : ℤ) : ℚ)
  else if a.isPreview then 1
  else if b.isPreview then -1
  else 0

/-- The strict order the comparator implements on pairs that are not both
previews: by depth key, then by row, then placed items before the
preview. -/
def entityLt (a b : Entity) : Prop :=
  depthKey a < depthKey b ∨
    (depthKey a = depthKey b ∧
      (a.gridRow.getD 999 < b.gridRow.getD 999 ∨
        (a.gridRow.getD 999 = b.gridRow.getD 999 ∧ a.isPreview = false ∧
          b.isPreview = true)))

instance (a b : Entity) : Decidable (entityLt a b) := by
  unfold entityLt; infer_instance

/-! ### Concrete states used by witnesses and counterexamples -/

/-- The cost table as initialized by the `GameScene` constructor from the
registry. -/
def defaultCosts : String → Int := fun t => (getBuildingConfig t).cost

/-- A placed university anchor tile. -/
def uniAnchorTile : Tile := ⟨"university", false, some (0, 0), true, true⟩

/-- A hidden member cell of the university footprint anchored at (0,0). -/
def uniMemberTile : Tile := ⟨"grass", false, some (0, 0), false, false⟩

/-- A 10×10 state with a 2×2 university placed at (0,0). -/
def exUniScene : Scene :=
  { money := 0, population := 0, happiness := 1, costs := defaultCosts,
    previewFlipped := false,
    grid := fun r c =>
      if r = 0 ∧ c = 0 then uniAnchorTile
      else if (r = 0 ∧ c = 1) ∨ (r = 1 ∧ c = 0) ∨ (r = 1 ∧ c = 1) then uniMemberTile
      else grassTile }

/-- An empty grid with 100 money. -/
def exEmptyScene : Scene :=
  { money := 100, population := 0, happiness := 1, costs := defaultCosts,
    previewFlipped := false, grid := fun _ _ => grassTile }

/-- Lots of money, a single house at (5,6) blocking the (5,5) footprint. -/
def exOccScene : Scene :=
  { money := 100000, population := 5, happiness := 1, costs := defaultCosts,
    previewFlipped := false,
    grid := fun r c =>
      if r = 5 ∧ c = 6 then ⟨"house", false, none, false, true⟩ else grassTile }

/-- A shop and a market with population 12. -/
def exIncomeScene : Scene :=
  { money := 0, population := 12, happiness := 1, costs := defaultCosts,
    previewFlipped := false,
    grid := fun r c =>
      if r = 0 ∧ c = 0 then ⟨"shop", false, none, false, true⟩
      else if r = 0 ∧ c = 1 then ⟨"market", false, none, false, true⟩
      else grassTile }

/-- Same grid as `exOccScene` but with a flipped preview cursor. -/
def exFlipScene : Scene := { exOccScene with previewFlipped := true }

/-! ### Tick economy: C5 and C10 -/

lemma countTiles_nonneg (n : Nat) (s : Scene) (t : String) : 0 ≤ countTiles n s t := by
  unfold countTiles
  exact_mod_cast Nat.zero_le _

lemma calculateIncome_eq_spec (n : Nat) (s : Scene) :
    calculateIncome n s =
      specIncome (countTiles n s "shop") (countTiles n s "market")
        s.population s.happiness := by
  simp only [calculateIncome, specIncome, specPerShopIncome, getEffectiveHappiness]
  split
  · rcases lt_or_eq_of_le (countTiles_nonneg n s "shop") with hs | hs
    · rcases lt_or_eq_of_le (countTiles_nonneg n s "market") with hm | hm
      · rw [if_pos hs, if_pos hm]; push_cast; ring_nf
      · rw [if_pos hs, if_neg (by omega), ← hm]; push_cast; ring_nf
    · rcases lt_or_eq_of_le (countTiles_nonneg n s "market") with hm | hm
      · rw [if_neg (by omega), if_pos hm, ← hs]; push_cast; ring_nf
      · omega
  · rename_i hguard
    push_neg at hguard
    have hs : countTiles n s "shop" = 0 := le_antisymm hguard.1 (countTiles_nonneg n s "shop")
    have hm : countTiles n s "market" = 0 :=
      le_antisymm hguard.2 (countTiles_nonneg n s "market")
    rw [hs, hm]; ring

/-- Claim C5: the income computed on a tick is a deterministic function of
only the current shop/market counts, population and happiness, given by
per-shop income floor((10 + floor(population/5)) * h) with h the effective
happiness clamped to [-0.5, 1.5], per-market income 10 times per-shop
income, and total income shops*perShop + markets*perMarket; two states
agreeing on those inputs (in particular the same state on two ticks)
compute the same income. -/
theorem income_is_pure_function_of_counts (n m : Nat) (s t : Scene)
    (hshop : countTiles n s "shop" = countTiles m t "shop")
    (hmarket : countTiles n s "market" = countTiles m t "market")
    (hpop : s.population = t.population)
    (hhap : s.happiness = t.happiness) :
    calculateIncome n s =
      specIncome (countTiles n s "shop") (countTiles n s "market")
        s.population s.happiness ∧
    calculateIncome n s = calculateIncome m t := by
  refine ⟨calculateIncome_eq_spec n s, ?_⟩
  rw [calculateIncome_eq_spec n s, calculateIncome_eq_spec m t, hshop, hmarket, hpop, hhap]

theorem income_is_pure_function_of_counts_witness :
    calculateIncome 3 exIncomeScene =
      specIncome (countTiles 3 exIncomeScene "shop") (countTiles 3 exIncomeScene "market")
        exIncomeScene.population exIncomeScene.happiness ∧
    calculateIncome 3 exIncomeScene = calculateIncome 3 exIncomeScene :=
  income_is_pure_function_of_counts 3 3 exIncomeScene exIncomeScene
    (by decide) (by decide) (by decide) (by decide)

/-- Claim C10: a tick never decreases the balance; when the computed
income is zero or negative the balance is left unchanged. -/
theorem tick_money_monotone (n : Nat) (s : Scene) :
    s.money ≤ (handleTick n s).money ∧
      (calculateIncome n s ≤ 0 → (handleTick n s).money = s.money) := by
  unfold handleTick
  split
  · rename_i hpos
    unfold updateMoney
    constructor
    · simp only
      omega
    · intro hle
      omega
  · exact ⟨le_refl _, fun _ => rfl⟩

theorem tick_money_monotone_witness :
    exIncomeScene.money ≤ (handleTick 3 exIncomeScene).money ∧
      (calculateIncome 3 exIncomeScene ≤ 0 →
        (handleTick 3 exIncomeScene).money = exIncomeScene.money) :=
  tick_money_monotone 3 exIncomeScene

/-! ### Save/load round trip: C8 -/

lemma getGridData_cell (n : Nat) (s : Scene) (r c : Nat) (hr : r < n) (hc : c < n) :
    ((getGridData n s).getD r []).getD c defaultTileData = tileDataOf (s.grid r c) := by
  unfold getGridData
  simp only [List.getD_eq_getElem?_getD, List.getElem?_map, List.getElem?_range hr,
    List.getElem?_range hc, Option.map_some', Option.getD_some]

/-- Claim C8: serializing a state with `saveGame` and loading the document
with `loadGame` reproduces the identical economy state (balance,
population, happiness, per-kind cost) and, on every in-bounds cell, the
identical persisted grid fields (kind, orientation, anchor reference,
master flag), whatever state the loading scene previously held. -/
theorem save_load_roundtrip (n : Nat) (s s₀ : Scene) (r c : Nat)
    (hr : r < n) (hc : c < n) :
    (loadGame (saveGame n s) s₀).money = s.money ∧
    (loadGame (saveGame n s) s₀).population = s.population ∧
    (loadGame (saveGame n s) s₀).happiness = s.happiness ∧
    (loadGame (saveGame n s) s₀).costs = s.costs ∧
    ((loadGame (saveGame n s) s₀).grid r c).type = (s.grid r c).type ∧
    ((loadGame (saveGame n s) s₀).grid r c).isFlipped = (s.grid r c).isFlipped ∧
    ((loadGame (saveGame n s) s₀).grid r c).masterTile = (s.grid r c).masterTile ∧
    ((loadGame (saveGame n s) s₀).grid r c).isMaster = (s.grid r c).isMaster := by
  refine ⟨rfl, rfl, rfl, rfl, ?_, ?_, ?_, ?_⟩ <;>
    simp only [loadGame, saveGame, initGrid, getGridData_cell n s r c hr hc,
      tileFromData, tileDataOf]

theorem save_load_roundtrip_witness :
    (loadGame (saveGame 10 exUniScene) exEmptyScene).money = exUniScene.money ∧
    (loadGame (saveGame 10 exUniScene) exEmptyScene).population = exUniScene.population ∧
    (loadGame (saveGame 10 exUniScene) exEmptyScene).happiness = exUniScene.happiness ∧
    (loadGame (saveGame 10 exUniScene) exEmptyScene).costs = exUniScene.costs ∧
    ((loadGame (saveGame 10 exUniScene) exEmptyScene).grid 0 1).type =
      (exUniScene.grid 0 1).type ∧
    ((loadGame (saveGame 10 exUniScene) exEmptyScene).grid 0 1).isFlipped =
      (exUniScene.grid 0 1).isFlipped ∧
    ((loadGame (saveGame 10 exUniScene) exEmptyScene).grid 0 1).masterTile =
      (exUniScene.grid 0 1).masterTile ∧
    ((loadGame (saveGame 10 exUniScene) exEmptyScene).grid 0 1).isMaster =
      (exUniScene.grid 0 1).isMaster :=
  save_load_roundtrip 10 exUniScene exEmptyScene 0 1 (by decide) (by decide)

/-! ### Depth comparator: C6 and C7 -/

lemma depthKey_ten (e : Entity) : ∃ z : ℤ, depthKey e * 10 = (z : ℚ) := by
  unfold depthKey
  split
  · rename_i hsz
    have h1 : 1 ≤ (getBuildingConfig e.texture).size := by omega
    split
    · refine ⟨(e.gridRow.getD 999 + e.gridCol.getD 999) * 10 +
        ((getBuildingConfig e.texture).size : ℤ) * 10 - 10 + 1, ?_⟩
      rw [Nat.cast_sub h1]
      push_cast
      ring
    · refine ⟨(e.gridRow.getD 999 + e.gridCol.getD 999) * 10 +
        ((getBuildingConfig e.texture).size : ℤ) * 10 - 10, ?_⟩
      rw [Nat.cast_sub h1]
      push_cast
      ring
  · split
    · refine ⟨(e.gridRow.getD 999 + e.gridCol.getD 999) * 10 + 1, ?_⟩
      push_cast
      ring
    · refine ⟨(e.gridRow.getD 999 + e.gridCol.getD 999) * 10, ?_⟩
      push_cast
      ring

/-- Distinct depth keys always differ by more than the 0.01 comparator
tolerance: every key is an integer multiple of 1/10. -/
lemma depthKey_gap (a b : Entity) (h : depthKey a ≠ depthKey b) :
    1/100 < |depthKey a - depthKey b| := by
  obtain ⟨za, hza⟩ := depthKey_ten a
  obtain ⟨zb, hzb⟩ := depthKey_ten b
  have hne : za ≠ zb := by
    intro he
    apply h
    have h10 : depthKey a * 10 = depthKey b * 10 := by rw [hza, hzb, he]
    exact mul_right_cancel₀ (by norm_num) h10
  have h1 : (1 : ℚ) ≤ |(za : ℚ) - (zb : ℚ)| := by
    have habs : (1 : ℤ) ≤ |za - zb| := Int.one_le_abs (sub_ne_zero.mpr hne)
    calc (1 : ℚ) ≤ ((|za - zb| : ℤ) : ℚ) := by exact_mod_cast habs
      _ = |(za : ℚ) - (zb : ℚ)| := by push_cast [Int.cast_abs]; ring_nf
  have hdiff : depthKey a - depthKey b = ((za : ℚ) - zb) / 10 := by
    field_simp
    linarith [hza, hzb]
  rw [hdiff, abs_div]
  have h10 : |(10 : ℚ)| = 10 := by norm_num
  rw [h10]
  linarith

lemma compare_strict (a b : Entity) (h : depthKey a ≠ depthKey b) :
    (compareEntities a b < 0 ↔ depthKey a < depthKey b) ∧
      (0 < compareEntities a b ↔ depthKey b < depthKey a) ∧
      compareEntities a b ≠ 0 := by
  have hgap := depthKey_gap a b h
  unfold compareEntities
  rw [if_pos hgap]
  exact ⟨sub_neg, sub_pos, sub_ne_zero_of_ne h⟩

/-- Claim C6: the comparator orders entities by the key row + col, plus
(size - 1) for multi-cell kinds, plus a 0.1 bias for non-grass occupants
(this key is `depthKey`); whenever the keys differ the comparison is
strict, and in particular a non-grass occupant never ties with bare
ground at equal row + col. -/
theorem depth_comparator_orders_by_key (a b : Entity) :
    (depthKey a ≠ depthKey b →
      ((compareEntities a b < 0 ↔ depthKey a < depthKey b) ∧
        (0 < compareEntities a b ↔ depthKey b < depthKey a) ∧
        compareEntities a b ≠ 0)) ∧
    (a.texture ≠ "grass" → b.texture = "grass" →
      a.gridRow.getD 999 + a.gridCol.getD 999 = b.gridRow.getD 999 + b.gridCol.getD 999 →
      depthKey a ≠ depthKey b ∧ compareEntities a b ≠ 0) := by
  refine ⟨compare_strict a b, ?_⟩
  intro ha hb hsum
  have hkb : depthKey b = ((b.gridRow.getD 999 + b.gridCol.getD 999 : ℤ) : ℚ) := by
    simp [depthKey, hb, getBuildingConfig, grassConfig]
  have hka : ((a.gridRow.getD 999 + a.gridCol.getD 999 : ℤ) : ℚ) + 1/10 ≤ depthKey a := by
    unfold depthKey
    have hadj : (0:ℚ) ≤ (if 1 < (getBuildingConfig a.texture).size then
        (((getBuildingConfig a.texture).size - 1 : ℕ) : ℚ) else 0) := by
      split
      · exact Nat.cast_nonneg _
      · exact le_refl 0
    rw [if_pos ha]
    linarith
  have hlt : depthKey b < depthKey a := by
    have hsumq : ((b.gridRow.getD 999 + b.gridCol.getD 999 : ℤ) : ℚ) =
        ((a.gridRow.getD 999 + a.gridCol.getD 999 : ℤ) : ℚ) := by
      exact_mod_cast congrArg (Int.cast : ℤ → ℚ) hsum.symm
    rw [hkb, hsumq]
    linarith
  exact ⟨ne_of_gt hlt, (compare_strict a b (ne_of_gt hlt)).2.2⟩

def wHouseEnt : Entity := ⟨some 2, some 3, "house", false⟩
def wGrassEnt : Entity := ⟨some 2, some 3, "grass", false⟩

theorem depth_comparator_orders_by_key_witness :
    ((compareEntities wHouseEnt wGrassEnt < 0 ↔ depthKey wHouseEnt < depthKey wGrassEnt) ∧
      (0 < compareEntities wHouseEnt wGrassEnt ↔ depthKey wGrassEnt < depthKey wHouseEnt) ∧
      compareEntities wHouseEnt wGrassEnt ≠ 0) ∧
    (depthKey wHouseEnt ≠ depthKey wGrassEnt ∧ compareEntities wHouseEnt wGrassEnt ≠ 0) :=
  ⟨(depth_comparator_orders_by_key wHouseEnt wGrassEnt).1
      (by norm_num [depthKey, wHouseEnt, wGrassEnt,
        show getBuildingConfig "house" = houseConfig from rfl,
        show getBuildingConfig "grass" = grassConfig from rfl, houseConfig, grassConfig,
        show ("house" : String) ≠ "grass" from by decide]),
    (depth_comparator_orders_by_key wHouseEnt wGrassEnt).2 (by decide) (by decide) (by decide)⟩

lemma compare_lt_iff (a b : Entity) : compareEntities a b < 0 ↔ entityLt a b := by
  unfold compareEntities entityLt
  split
  · rename_i hgap
    have hne : depthKey a ≠ depthKey b := by
      intro he
      rw [he, sub_self, abs_zero] at hgap
      norm_num at hgap
    constructor
    · intro hlt
      exact Or.inl (sub_neg.mp hlt)
    · rintro (hlt | ⟨heq, _⟩)
      · exact sub_neg.mpr hlt
      · exact absurd heq hne
  · rename_i hgap
    have heq : depthKey a = depthKey b := by
      by_contra hne
      exact hgap (depthKey_gap a b hne)
    split
    · rename_i hrow
      constructor
      · intro hlt
        refine Or.inr ⟨heq, Or.inl ?_⟩
        have : ((a.gridRow.getD 999 - b.gridRow.getD 999 : ℤ) : ℚ) < 0 := hlt
        have h2 : (a.gridRow.getD 999 - b.gridRow.getD 999 : ℤ) < 0 := by exact_mod_cast this
        omega
      · rintro (hlt | ⟨_, hr | ⟨hre, _⟩⟩)
        · rw [heq] at hlt
          exact absurd hlt (lt_irrefl _)
        · show ((a.gridRow.getD 999 - b.gridRow.getD 999 : ℤ) : ℚ) < 0
          have h2 : (a.gridRow.getD 999 - b.gridRow.getD 999 : ℤ) < 0 := by omega
          exact_mod_cast h2
        · exact absurd hre hrow
    · rename_i hrow
      have hre : a.gridRow.getD 999 = b.gridRow.getD 999 := by
        by_contra hcon
        exact hrow hcon
      split
      · rename_i hap
        constructor
        · intro h1
          norm_num at h1
        · rintro (hlt | ⟨_, hr | ⟨_, hpa, _⟩⟩)
          · rw [heq] at hlt
            exact absurd hlt (lt_irrefl _)
          · rw [hre] at hr
            exact absurd hr (lt_irrefl _)
          · rw [hap] at hpa
            cases hpa
      · rename_i hap
        split
        · rename_i hbp
          constructor
          · intro _
            exact Or.inr ⟨heq, Or.inr ⟨hre, by simpa using hap, hbp⟩⟩
          · intro _
            norm_num
        · rename_i hbp
          constructor
          · intro h0
            norm_num at h0
          · rintro (hlt | ⟨_, hr | ⟨_, _, hpb⟩⟩)
            · rw [heq] at hlt
              exact absurd hlt (lt_irrefl _)
            · rw [hre] at hr
              exact absurd hr (lt_irrefl _)
            · exact absurd hpb (by simpa using hbp)

lemma entityLt_trans (a b c : Entity) (h1 : entityLt a b) (h2 : entityLt b c) :
    entityLt a c := by
  unfold entityLt at *
  rcases h1 with h1 | ⟨he1, h1⟩
  · rcases h2 with h2 | ⟨he2, _⟩
    · exact Or.inl (lt_trans h1 h2)
    · exact Or.inl (he2 ▸ h1)
  · rcases h2 with h2 | ⟨he2, h2⟩
    · exact Or.inl (he1 ▸ h2)
    · refine Or.inr ⟨he1.trans he2, ?_⟩
      rcases h1 with h1 | ⟨hr1, hp1⟩
      · rcases h2 with h2 | ⟨hr2, _⟩
        · exact Or.inl (lt_trans h1 h2)
        · exact Or.inl (hr2 ▸ h1)
      · rcases h2 with h2 | ⟨hr2, hp2⟩
        · exact Or.inl (hr1 ▸ h2)
        · exact absurd hp2.1 (by rw [hp1.2]; simp)

lemma compare_neg (a b : Entity) (h : ¬(a.isPreview = true ∧ b.isPreview = true)) :
    compareEntities b a = -compareEntities a b := by
  unfold compareEntities
  by_cases hC : 1/100 < |depthKey a - depthKey b|
  · rw [if_pos (by rwa [abs_sub_comm]), if_pos hC]
    ring
  · rw [if_neg (by rwa [abs_sub_comm]), if_neg hC]
    by_cases hR : a.gridRow.getD 999 = b.gridRow.getD 999
    · have hRn : ¬(b.gridRow.getD 999 ≠ a.gridRow.getD 999) := fun hcon => hcon hR.symm
      have hRn' : ¬(a.gridRow.getD 999 ≠ b.gridRow.getD 999) := fun hcon => hcon hR
      rw [if_neg hRn, if_neg hRn']
      cases hpa : a.isPreview <;> cases hpb : b.isPreview
      · simp [hpa, hpb]
      · simp [hpa, hpb]
      · simp [hpa, hpb]
      · exact absurd ⟨hpa, hpb⟩ h
    · have hRp : b.gridRow.getD 999 ≠ a.gridRow.getD 999 := Ne.symm hR
      rw [if_pos hRp, if_pos hR]
      push_cast
      ring

/-- Counterexample to claim C7 as stated: two distinct entities that are
both previews with equal depth key and row are each reported as coming
after the other, so the comparator is not antisymmetric on the raw
(row, col, size, occupancy, preview-flag) domain. -/
def previewHouseEnt : Entity := ⟨some 0, some 3, "house", true⟩

def previewUniEnt : Entity := ⟨some 0, some 2, "university", true⟩

lemma depthKey_previewHouse : depthKey previewHouseEnt = 31/10 := by
  norm_num [depthKey, previewHouseEnt, show getBuildingConfig "house" = houseConfig from rfl,
    houseConfig, show ("house" : String) ≠ "grass" from by decide]

lemma depthKey_previewUni : depthKey previewUniEnt = 31/10 := by
  norm_num [depthKey, previewUniEnt,
    show getBuildingConfig "university" = universityConfig from rfl,
    universityConfig, show ("university" : String) ≠ "grass" from by decide]

theorem depth_order_not_total_counterexample :
    previewHouseEnt ≠ previewUniEnt ∧
    0 < compareEntities previewHouseEnt previewUniEnt ∧
    0 < compareEntities previewUniEnt previewHouseEnt := by
  refine ⟨by decide, ?_, ?_⟩ <;>
    · unfold compareEntities
      rw [depthKey_previewHouse, depthKey_previewUni]
      norm_num [previewHouseEnt, previewUniEnt]

/-- Claim C7 (amended): provided at most one of the compared entities is
the preview/cursor overlay — the scene only ever holds one preview — the
comparator is a deterministic total order on (row, col, size, occupancy,
preview-flag): it is the strict lexicographic order `entityLt` (key, then
row, then the preview sorting last), it is antisymmetric, any key
difference orders strictly, and it is transitive. -/
theorem depth_order_total_amended (a b c : Entity)
    (hab : ¬(a.isPreview = true ∧ b.isPreview = true)) :
    (compareEntities a b < 0 ↔ entityLt a b) ∧
    compareEntities b a = -compareEntities a b ∧
    (depthKey a < depthKey b → compareEntities a b < 0) ∧
    (compareEntities a b < 0 → compareEntities b c < 0 → compareEntities a c < 0) := by
  refine ⟨compare_lt_iff a b, compare_neg a b hab, ?_, ?_⟩
  · intro hk
    exact (compare_lt_iff a b).mpr (Or.inl hk)
  · intro h1 h2
    exact (compare_lt_iff a c).mpr
      (entityLt_trans a b c ((compare_lt_iff a b).mp h1) ((compare_lt_iff b c).mp h2))

def wGrassEnt2 : Entity := ⟨some 0, some 0, "grass", false⟩

def wPreviewEnt : Entity := ⟨some 1, some 1, "house", true⟩

theorem depth_order_total_amended_witness :
    (compareEntities wGrassEnt2 wHouseEnt < 0 ↔ entityLt wGrassEnt2 wHouseEnt) ∧
    compareEntities wHouseEnt wGrassEnt2 = -compareEntities wGrassEnt2 wHouseEnt ∧
    (depthKey wGrassEnt2 < depthKey wHouseEnt → compareEntities wGrassEnt2 wHouseEnt < 0) ∧
    (compareEntities wGrassEnt2 wHouseEnt < 0 → compareEntities wHouseEnt wPreviewEnt < 0 →
      compareEntities wGrassEnt2 wPreviewEnt < 0) :=
  depth_order_total_amended wGrassEnt2 wHouseEnt wPreviewEnt (by decide)

/-! ### Placement engine: C1-C4 and C9 -/

lemma size_pos (t : String) : 0 < (getBuildingConfig t).size := by
  unfold getBuildingConfig
  repeat' split
  all_goals decide

lemma placeTile_err_pair (n : Nat) (s : Scene) (row col : Nat) (type : String)
    (s' : Scene) (e : PlaceErr) (h : placeTile n s row col type = (s', .err e)) :
    s' = s := by
  unfold placeTile at h
  split at h
  · injection h with h1 h2
    exact h1.symm
  · split at h
    · injection h with h1 h2
      exact h1.symm
    · split at h
      · injection h with h1 h2
        exact h1.symm
      · split at h
        · injection h with h1 h2
          cases h2
        · split at h
          · injection h with h1 h2
            exact h1.symm
          · split at h
            · injection h with h1 h2
              cases h2
            · injection h with h1 h2
              cases h2

/-- Claim C3: whenever `placeTile` fails, for any of the classified
reasons, the whole game state (grid, balance, population, happiness,
per-kind costs) is unchanged. -/
theorem place_failure_no_mutation (n : Nat) (s : Scene) (row col : Nat) (type : String)
    (e : PlaceErr) (h : (placeTile n s row col type).2 = .err e) :
    (placeTile n s row col type).1 = s := by
  apply placeTile_err_pair n s row col type _ e
  rw [← h]

/-- The concrete case of C3: a 2×2 placement at (5,5) with (5,6) occupied
fails as Occupied and mutates nothing. -/
theorem place_failure_no_mutation_witness :
    (placeTile 10 exOccScene 5 5 "university").2 = PlaceResult.err PlaceErr.occupied ∧
    (placeTile 10 exOccScene 5 5 "university").1 = exOccScene :=
  ⟨by decide, place_failure_no_mutation 10 exOccScene 5 5 "university"
    PlaceErr.occupied (by decide)⟩

lemma mem_footprintCells {row col size : Nat} {x : Nat × Nat} :
    x ∈ footprintCells row col size ↔
      ∃ i, i < size ∧ ∃ j, j < size ∧ x = (row + i, col + j) := by
  simp only [footprintCells, List.mem_flatMap, List.mem_map, List.mem_range]
  constructor
  · rintro ⟨i, hi, j, hj, rfl⟩
    exact ⟨i, hi, j, hj, rfl⟩
  · rintro ⟨i, hi, j, hj, rfl⟩
    exact ⟨i, hi, j, hj, rfl⟩

/-- Claim C4: placing a kind onto empty, in-bounds cells whose current
per-kind cost is positive and exceeds the balance fails with
InsufficientFunds, and the state (in particular the balance) is
unchanged. -/
theorem place_insufficient_funds (n : Nat) (s : Scene) (row col : Nat) (type : String)
    (htype : type ≠ "grass")
    (hcells : ∀ i, i < (getBuildingConfig type).size →
      ∀ j, j < (getBuildingConfig type).size →
        isValidCoord n (row + i) (col + j) ∧
        (s.grid (row + i) (col + j)).type = "grass" ∧
        (s.grid (row + i) (col + j)).masterTile = none)
    (hcost : 0 < effectiveCost s type)
    (hmoney : s.money < effectiveCost s type) :
    (placeTile n s row col type).2 = .err .insufficientFunds ∧
    (placeTile n s row col type).1 = s ∧ (placeTile n s row col type).1.money = s.money := by
  have h00 := hcells 0 (size_pos type) 0 (size_pos type)
  simp only [Nat.add_zero] at h00
  have hmain : placeTile n s row col type = (s, .err .insufficientFunds) := by
    unfold placeTile
    rw [if_neg (not_not_intro h00.1)]
    have hfoot : ∀ x ∈ footprintCells row col (getBuildingConfig type).size,
        cellBlock n s x = none := by
      intro x hx
      obtain ⟨i, hi, j, hj, rfl⟩ := mem_footprintCells.mp hx
      have hc := hcells i hi j hj
      unfold cellBlock
      rw [if_neg (not_not_intro hc.1)]
      rw [if_neg ?_]
      rintro (hA | hB)
      · exact hA hc.2.1
      · exact hB hc.2.2
    have hscrut : (if 1 < (getBuildingConfig type).size then
        (footprintCells row col (getBuildingConfig type).size).findSome? (cellBlock n s)
        else none) = none := by
      split
      · exact List.findSome?_eq_none_iff.mpr hfoot
      · rfl
    rw [hscrut]
    have hocc : ¬(¬ 1 < (getBuildingConfig type).size ∧ type ≠ "grass" ∧
        ((s.grid row col).type ≠ "grass" ∨ (s.grid row col).masterTile ≠ none) ∧
        (s.grid row col).type ≠ type) := by
      rintro ⟨_, _, hC | hC, _⟩
      · exact hC h00.2.1
      · exact hC h00.2.2
    rw [if_neg hocc]
    have hnoop : ¬((s.grid row col).type = type ∧
        (s.grid row col).isFlipped = s.previewFlipped ∧
        ¬ 1 < (getBuildingConfig type).size) := by
      rintro ⟨hT, _, _⟩
      rw [h00.2.1] at hT
      exact htype hT.symm
    rw [if_neg hnoop]
    have hne : (s.grid row col).type ≠ type := by
      rw [h00.2.1]
      exact fun hc => htype hc.symm
    rw [if_pos hne]
    have hcp : chargePhase s row col type s.previewFlipped = .error .insufficientFunds := by
      simp only [chargePhase]
      rw [if_pos ⟨hcost, hmoney⟩]
    rw [hcp]
  exact ⟨by rw [hmain], by rw [hmain], by rw [hmain]⟩

theorem place_insufficient_funds_witness :
    (placeTile 10 exEmptyScene 0 0 "university").2 = PlaceResult.err PlaceErr.insufficientFunds ∧
    (placeTile 10 exEmptyScene 0 0 "university").1 = exEmptyScene ∧
    (placeTile 10 exEmptyScene 0 0 "university").1.money = exEmptyScene.money :=
  place_insufficient_funds 10 exEmptyScene 0 0 "university" (by decide) (by decide)
    (by decide) (by decide)

lemma applySingleTile_grid (s : Scene) (row col : Nat) (type : String) (flipped : Bool)
    (r c : Nat) :
    (applySingleTile s row col type flipped).grid r c =
      if r = row ∧ c = col then singlePlaceCell (s.grid r c) type flipped
      else s.grid r c := rfl

/-- Claim C9: re-placing the same size-1 kind on its own cell with a
different preview orientation succeeds, charges nothing, re-applies no
stat deltas, and changes only that cell's flip flag. -/
theorem reorientation_in_place (n : Nat) (s : Scene) (row col : Nat) (k : String)
    (hv : isValidCoord n row col)
    (htile : (s.grid row col).type = k)
    (hsize : (getBuildingConfig k).size = 1)
    (hk : k ≠ "grass")
    (hmaster : (s.grid row col).masterTile = none)
    (hM : (s.grid row col).isMaster = false)
    (hflip : (s.grid row col).isFlipped ≠ s.previewFlipped) :
    (placeTile n s row col k).2 = .ok ∧
    (placeTile n s row col k).1.money = s.money ∧
    (placeTile n s row col k).1.population = s.population ∧
    (placeTile n s row col k).1.happiness = s.happiness ∧
    (placeTile n s row col k).1.costs = s.costs ∧
    (placeTile n s row col k).1.grid row col =
      { s.grid row col with isFlipped := s.previewFlipped } ∧
    (∀ r c, ¬(r = row ∧ c = col) → (placeTile n s row col k).1.grid r c = s.grid r c) := by
  have hns : ¬ 1 < (getBuildingConfig k).size := by omega
  have hmain : placeTile n s row col k =
      (applySingleTile s row col k s.previewFlipped, .ok) := by
    unfold placeTile
    rw [if_neg (not_not_intro hv)]
    have hscrut : (if 1 < (getBuildingConfig k).size then
        (footprintCells row col (getBuildingConfig k).size).findSome? (cellBlock n s)
        else none) = none := by
      rw [if_neg hns]
    rw [hscrut]
    have hocc : ¬(¬ 1 < (getBuildingConfig k).size ∧ k ≠ "grass" ∧
        ((s.grid row col).type ≠ "grass" ∨ (s.grid row col).masterTile ≠ none) ∧
        (s.grid row col).type ≠ k) := by
      rintro ⟨_, _, _, hT⟩
      exact hT htile
    rw [if_neg hocc]
    have hnoop : ¬((s.grid row col).type = k ∧
        (s.grid row col).isFlipped = s.previewFlipped ∧
        ¬ 1 < (getBuildingConfig k).size) := by
      rintro ⟨_, hF, _⟩
      exact hflip hF
    rw [if_neg hnoop]
    have hne' : ¬((s.grid row col).type ≠ k) := fun hc => hc htile
    rw [if_neg hne']
    show (if ¬ 1 < (getBuildingConfig k).size then
        (applySingleTile s row col k s.previewFlipped, PlaceResult.ok)
      else (s, PlaceResult.ok)) = _
    rw [if_pos hns]
  refine ⟨by rw [hmain], by rw [hmain]; rfl, by rw [hmain]; rfl, by rw [hmain]; rfl,
    by rw [hmain]; rfl, ?_, ?_⟩
  · rw [hmain]
    show (applySingleTile s row col k s.previewFlipped).grid row col = _
    rw [applySingleTile_grid, if_pos ⟨rfl, rfl⟩]
    set g : Tile := s.grid row col with hg
    clear_value g
    rcases g with ⟨t, f, m, im, v⟩
    simp only at htile hmaster hM
    subst htile
    subst hmaster
    subst hM
    rfl
  · intro r c hne
    rw [hmain]
    show (applySingleTile s row col k s.previewFlipped).grid r c = _
    rw [applySingleTile_grid, if_neg hne]

theorem reorientation_in_place_witness :
    (placeTile 10 exFlipScene 5 6 "house").2 = .ok ∧
    (placeTile 10 exFlipScene 5 6 "house").1.money = exFlipScene.money ∧
    (placeTile 10 exFlipScene 5 6 "house").1.population = exFlipScene.population ∧
    (placeTile 10 exFlipScene 5 6 "house").1.happiness = exFlipScene.happiness ∧
    (placeTile 10 exFlipScene 5 6 "house").1.costs = exFlipScene.costs ∧
    (placeTile 10 exFlipScene 5 6 "house").1.grid 5 6 =
      { exFlipScene.grid 5 6 with isFlipped := exFlipScene.previewFlipped } ∧
    (∀ r c, ¬(r = 5 ∧ c = 6) →
      (placeTile 10 exFlipScene 5 6 "house").1.grid r c = exFlipScene.grid r c) :=
  reorientation_in_place 10 exFlipScene 5 6 "house" (by decide) (by decide) (by decide)
    (by decide) (by decide) (by decide) (by decide)

lemma cellBlock_none {n : Nat} {s : Scene} {rc : Nat × Nat}
    (h : cellBlock n s rc = none) :
    isValidCoord n rc.1 rc.2 ∧ (s.grid rc.1 rc.2).type = "grass" ∧
      (s.grid rc.1 rc.2).masterTile = none := by
  unfold cellBlock at h
  split at h
  · cases h
  · split at h
    · cases h
    · rename_i hv hocc
      push_neg at hv hocc
      exact ⟨hv, hocc.1, hocc.2⟩

lemma chargePhase_ok_multi {s : Scene} {row col : Nat} {type : String} {flip : Bool}
    {s4 : Scene} (hsz : 1 < (getBuildingConfig type).size)
    (h : chargePhase s row col type flip = .ok s4) :
    ∃ t, s4 = applyMultiTile t row col (getBuildingConfig type).size type flip := by
  simp only [chargePhase] at h
  by_cases hA : 0 < effectiveCost s type ∧ s.money < effectiveCost s type
  · rw [if_pos hA] at h
    cases h
  · rw [if_neg hA] at h
    by_cases hB : (getBuildingConfig type).reqPop ≠ 0 ∧
        s.population < (getBuildingConfig type).reqPop
    · rw [if_pos hB] at h
      cases h
    · rw [if_neg hB, if_pos hsz] at h
      injection h with h1
      exact ⟨_, h1.symm⟩

lemma applyMultiTile_grid (t : Scene) (row col size : Nat) (type : String) (flip : Bool)
    (r c : Nat) :
    (applyMultiTile t row col size type flip).grid r c =
      if row ≤ r ∧ r < row + size ∧ col ≤ c ∧ c < col + size then
        if r = row ∧ c = col then ⟨type, flip, some (row, col), true, true⟩
        else
          { t.grid r c with
            masterTile := some (row, col)
            isMaster := false
            visible := false }
      else t.grid r c := rfl

lemma applyMultiTile_master {t : Scene} {row col size : Nat} {type : String} {flip : Bool}
    {r c : Nat} (hr1 : row ≤ r) (hr2 : r < row + size) (hc1 : col ≤ c)
    (hc2 : c < col + size) :
    ((applyMultiTile t row col size type flip).grid r c).masterTile = some (row, col) := by
  rw [applyMultiTile_grid, if_pos ⟨hr1, hr2, hc1, hc2⟩]
  split
  · rfl
  · rfl

/-- Claim C2: after a successful placement of a non-empty kind, all
covered cells of the N×N footprint are occupied, each resolves to the
anchor (r, c) — multi-cell kinds carry the literal back-reference on
every covered cell — and the anchor cell carries the placed kind. -/
theorem placement_marks_footprint (n : Nat) (s : Scene) (row col : Nat) (type : String)
    (htype : type ≠ "grass")
    (hok : (placeTile n s row col type).2 = .ok) :
    ((placeTile n s row col type).1.grid row col).type = type ∧
    ∀ r c, row ≤ r → r < row + (getBuildingConfig type).size →
      col ≤ c → c < col + (getBuildingConfig type).size →
      (((placeTile n s row col type).1.grid r c).type ≠ "grass" ∨
        ((placeTile n s row col type).1.grid r c).masterTile ≠ none) ∧
      resolveAnchor (placeTile n s row col type).1 r c = (row, col) ∧
      (1 < (getBuildingConfig type).size →
        ((placeTile n s row col type).1.grid r c).masterTile = some (row, col)) := by
  have hpair : placeTile n s row col type = ((placeTile n s row col type).1, .ok) := by
    rw [← hok]
  set s' := (placeTile n s row col type).1 with hs'
  clear_value s'
  clear hok hs'
  rename' hpair => h
  unfold placeTile at h
  split at h
  · injection h with h1 h2
    cases h2
  · split at h
    · injection h with h1 h2
      cases h2
    · rename_i heqfoot
      split at h
      · injection h with h1 h2
        cases h2
      · rename_i hocc
        split at h
        · injection h with h1 h2
          cases h2
        · rename_i hnoop
          split at h
          · injection h with h1 h2
            cases h2
          · rename_i s4 heqc
            split at h
            · rename_i hsingle
              injection h with h1 h2
              have hsz1 : (getBuildingConfig type).size = 1 := by
                have := size_pos type
                omega
              rw [← h1]
              constructor
              · rw [applySingleTile_grid, if_pos ⟨rfl, rfl⟩]
                rfl
              · intro r c hr1 hr2 hc1 hc2
                rw [hsz1] at hr2 hc2
                have hre : r = row := by omega
                have hce : c = col := by omega
                have hcell : (applySingleTile s4 row col type s.previewFlipped).grid r c =
                    singlePlaceCell (s4.grid r c) type s.previewFlipped := by
                  rw [applySingleTile_grid, if_pos ⟨hre, hce⟩]
                rw [hcell]
                refine ⟨Or.inl htype, ?_, fun hcon => absurd hsz1 (by omega)⟩
                unfold resolveAnchor
                rw [hcell]
                simp [singlePlaceCell, hre, hce]
            · rename_i hmulti
              injection h with h1 h2
              have hsz : 1 < (getBuildingConfig type).size := by
                by_contra hcon
                exact hmulti hcon
              rw [if_pos hsz] at heqfoot
              have hempty := cellBlock_none (List.findSome?_eq_none_iff.mp heqfoot
                (row, col) (mem_footprintCells.mpr
                  ⟨0, by omega, 0, by omega, by simp⟩))
              have hne : (s.grid row col).type ≠ type := by
                rw [hempty.2.1]
                exact fun hcon => htype hcon.symm
              rw [if_pos hne] at heqc
              obtain ⟨t, ht⟩ := chargePhase_ok_multi hsz heqc
              rw [← h1, ht]
              constructor
              · rw [applyMultiTile_grid,
                  if_pos ⟨le_refl _, by omega, le_refl _, by omega⟩, if_pos ⟨rfl, rfl⟩]
              · intro r c hr1 hr2 hc1 hc2
                have hm := @applyMultiTile_master t row col
                  (getBuildingConfig type).size type s.previewFlipped r c hr1 hr2 hc1 hc2
                refine ⟨Or.inr (by rw [hm]; exact fun hcon => by cases hcon), ?_,
                  fun _ => hm⟩
                unfold resolveAnchor
                rw [hm]
                rfl

theorem placement_marks_footprint_witness :
    ((placeTile 10 exOccScene 0 0 "university").1.grid 0 0).type = "university" ∧
    ∀ r c, 0 ≤ r → r < 0 + (getBuildingConfig "university").size →
      0 ≤ c → c < 0 + (getBuildingConfig "university").size →
      (((placeTile 10 exOccScene 0 0 "university").1.grid r c).type ≠ "grass" ∨
        ((placeTile 10 exOccScene 0 0 "university").1.grid r c).masterTile ≠ none) ∧
      resolveAnchor (placeTile 10 exOccScene 0 0 "university").1 r c = (0, 0) ∧
      (1 < (getBuildingConfig "university").size →
        ((placeTile 10 exOccScene 0 0 "university").1.grid r c).masterTile = some (0, 0)) :=
  placement_marks_footprint 10 exOccScene 0 0 "university" (by decide) (by decide)

/-- Counterexample to claim C1 as stated: removal (placing 'grass') at the
non-anchor footprint cell (0,1) of the university placed at (0,0) is a
no-op — the anchor keeps its kind, the member cells keep their anchor
references, and no stat delta is reversed.  (The cell's texture is
'grass' and its flip matches the preview, so `placeTile` takes the early
same-type/same-flip return before ever resolving the anchor.) -/
theorem removal_member_cell_counterexample :
    (1 < (getBuildingConfig "university").size ∧
      (exUniScene.grid 0 0).type = "university" ∧
      (exUniScene.grid 0 1).masterTile = some (0, 0)) ∧
    (placeTile 10 exUniScene 0 1 "grass").2 = PlaceResult.noop ∧
    ((placeTile 10 exUniScene 0 1 "grass").1.grid 0 0).type = "university" ∧
    ((placeTile 10 exUniScene 0 1 "grass").1.grid 0 1).masterTile = some (0, 0) ∧
    ((placeTile 10 exUniScene 0 1 "grass").1.grid 1 1).masterTile = some (0, 0) ∧
    (placeTile 10 exUniScene 0 1 "grass").1.population = exUniScene.population ∧
    (placeTile 10 exUniScene 0 1 "grass").1.happiness = exUniScene.happiness := by
  decide

lemma clearMultiTile_grid (s : Scene) (mr mc r c : Nat) :
    (clearMultiTile s (mr, mc)).grid r c =
      if mr ≤ r ∧ r < mr + (getBuildingConfig (s.grid mr mc).type).size ∧
          mc ≤ c ∧ c < mc + (getBuildingConfig (s.grid mr mc).type).size then
        ⟨"grass", false, none, false, true⟩
      else s.grid r c := rfl

/-- Claim C1 (amended): invoking removal (placing 'grass') at the ANCHOR
cell of a placed multi-cell building reverses the kind's stat deltas
exactly once and reverts every cell of the footprint to empty grass with
no remaining anchor reference, charging nothing; removal at a non-anchor
member cell does not do this (see the counterexample). -/
theorem removal_at_anchor_clears_footprint (n : Nat) (s : Scene) (mr mc : Nat)
    (k : String)
    (hsz : 1 < (getBuildingConfig k).size)
    (hv : isValidCoord n mr mc)
    (htype : (s.grid mr mc).type = k)
    (hmaster : (s.grid mr mc).masterTile = some (mr, mc))
    (hgrass : s.costs "grass" = 0) :
    (placeTile n s mr mc "grass").2 = .ok ∧
    (placeTile n s mr mc "grass").1.money = s.money ∧
    (placeTile n s mr mc "grass").1.costs = s.costs ∧
    (placeTile n s mr mc "grass").1.population =
      s.population - (getBuildingConfig k).effPop ∧
    (placeTile n s mr mc "grass").1.happiness =
      s.happiness - (getBuildingConfig k).effHap ∧
    ∀ r c, mr ≤ r → r < mr + (getBuildingConfig k).size →
      mc ≤ c → c < mc + (getBuildingConfig k).size →
      ((placeTile n s mr mc "grass").1.grid r c).type = "grass" ∧
      ((placeTile n s mr mc "grass").1.grid r c).masterTile = none := by
  have hkg : k ≠ "grass" := by
    intro he
    rw [he] at hsz
    exact absurd hsz (by decide)
  have hgsz : ¬ 1 < (getBuildingConfig "grass").size := by decide
  have hec : effectiveCost s "grass" = 0 := by
    unfold effectiveCost
    rw [if_pos hgrass]
    rfl
  have hcp : chargePhase s mr mc "grass" s.previewFlipped =
      .ok (updateHappiness (updatePopulation (clearMultiTile s (mr, mc))
        (getBuildingConfig "grass").effPop) (getBuildingConfig "grass").effHap) := by
    simp only [chargePhase]
    rw [hec]
    rw [if_neg (by rintro ⟨h0, _⟩; omega :
      ¬((0:ℤ) < 0 ∧ s.money < 0))]
    rw [if_neg (by rintro ⟨hne, _⟩; exact hne rfl :
      ¬((getBuildingConfig "grass").reqPop ≠ 0 ∧
        s.population < (getBuildingConfig "grass").reqPop))]
    rw [if_neg (by omega : ¬((0:ℤ) < 0))]
    rw [hmaster]
    rw [if_neg hgsz]
  have hmain : placeTile n s mr mc "grass" =
      (applySingleTile (updateHappiness (updatePopulation (clearMultiTile s (mr, mc))
        (getBuildingConfig "grass").effPop) (getBuildingConfig "grass").effHap)
        mr mc "grass" s.previewFlipped, .ok) := by
    unfold placeTile
    rw [if_neg (not_not_intro hv)]
    have hscrut : (if 1 < (getBuildingConfig "grass").size then
        (footprintCells mr mc (getBuildingConfig "grass").size).findSome? (cellBlock n s)
        else none) = none := by
      rw [if_neg hgsz]
    rw [hscrut]
    rw [if_neg (by
      rintro ⟨_, hne, _, _⟩
      exact hne rfl :
      ¬(¬ 1 < (getBuildingConfig "grass").size ∧ ("grass" : String) ≠ "grass" ∧
        ((s.grid mr mc).type ≠ "grass" ∨ (s.grid mr mc).masterTile ≠ none) ∧
        (s.grid mr mc).type ≠ "grass"))]
    rw [if_neg (by
      rintro ⟨hT, _, _⟩
      rw [htype] at hT
      exact hkg hT :
      ¬((s.grid mr mc).type = "grass" ∧
        (s.grid mr mc).isFlipped = s.previewFlipped ∧
        ¬ 1 < (getBuildingConfig "grass").size))]
    rw [if_pos (show (s.grid mr mc).type ≠ "grass" by rw [htype]; exact hkg)]
    rw [hcp]
    set X : Scene := updateHappiness (updatePopulation (clearMultiTile s (mr, mc))
      (getBuildingConfig "grass").effPop) (getBuildingConfig "grass").effHap with hX
    show (if ¬ 1 < (getBuildingConfig "grass").size then
        (applySingleTile X mr mc "grass" s.previewFlipped, PlaceResult.ok)
      else (X, PlaceResult.ok)) = _
    rw [if_pos hgsz]
  refine ⟨by rw [hmain], by rw [hmain]; rfl, by rw [hmain]; rfl, ?_, ?_, ?_⟩
  · rw [hmain]
    show (clearMultiTile s (mr, mc)).population + (getBuildingConfig "grass").effPop =
      s.population - (getBuildingConfig k).effPop
    show s.population + -(getBuildingConfig (s.grid mr mc).type).effPop +
      (getBuildingConfig "grass").effPop = s.population - (getBuildingConfig k).effPop
    rw [htype]
    have h0 : (getBuildingConfig "grass").effPop = 0 := rfl
    rw [h0]
    ring
  · rw [hmain]
    show s.happiness + -(getBuildingConfig (s.grid mr mc).type).effHap +
      (getBuildingConfig "grass").effHap = s.happiness - (getBuildingConfig k).effHap
    rw [htype]
    have h0 : (getBuildingConfig "grass").effHap = 0 := rfl
    rw [h0]
    ring
  · intro r c h1 h2 h3 h4
    rw [hmain]
    constructor
    · show ((applySingleTile _ mr mc "grass" s.previewFlipped).grid r c).type = "grass"
      rw [applySingleTile_grid]
      split
      · rfl
      · show ((clearMultiTile s (mr, mc)).grid r c).type = "grass"
        rw [clearMultiTile_grid, htype, if_pos ⟨h1, h2, h3, h4⟩]
    · show ((applySingleTile _ mr mc "grass" s.previewFlipped).grid r c).masterTile = none
      rw [applySingleTile_grid]
      split
      · rfl
      · show ((clearMultiTile s (mr, mc)).grid r c).masterTile = none
        rw [clearMultiTile_grid, htype, if_pos ⟨h1, h2, h3, h4⟩]

theorem removal_at_anchor_clears_footprint_witness :
    (placeTile 10 exUniScene 0 0 "grass").2 = .ok ∧
    (placeTile 10 exUniScene 0 0 "grass").1.money = exUniScene.money ∧
    (placeTile 10 exUniScene 0 0 "grass").1.costs = exUniScene.costs ∧
    (placeTile 10 exUniScene 0 0 "grass").1.population =
      exUniScene.population - (getBuildingConfig "university").effPop ∧
    (placeTile 10 exUniScene 0 0 "grass").1.happiness =
      exUniScene.happiness - (getBuildingConfig "university").effHap ∧
    ∀ r c, 0 ≤ r → r < 0 + (getBuildingConfig "university").size →
      0 ≤ c → c < 0 + (getBuildingConfig "university").size →
      ((placeTile 10 exUniScene 0 0 "grass").1.grid r c).type = "grass" ∧
      ((placeTile 10 exUniScene 0 0 "grass").1.grid r c).masterTile = none :=
  removal_at_anchor_clears_footprint 10 exUniScene 0 0 "university" (by decide)
    (by decide) (by decide) (by decide) (by decide)

end NewCity
